import Mathlib

/-!
Shallow embedding of the supervisor routing state machine of the
cerina-protocol-foundry backend (`backend/app`), together with the
persistence-facing helpers it depends on.  Python integers are modelled as
`Int` (scores) or `Nat` (counters, timestamps in seconds); SQL NULL and the
Python falsy values that the source treats interchangeably via `or` are
modelled as `Option`/the empty string.  Logging-only payloads (thought
`content`, `agent_name`, scratchpad note text) are never queried by any code
path and are elided from the records.
-/

/-- `Protocol.safety_score` JSON blob (`{"score": .., "flags": .., "notes": ..}`). -/
structure SafetyScore where
  score : Int
  flags : List String
  notes : String
deriving Repr, DecidableEq

/-- `Protocol.empathy_metrics` JSON blob (`{"score": .., "tone": .., "suggestions": ..}`). -/
structure EmpathyMetrics where
  score : Int
  tone : String
  suggestions : List String
deriving Repr, DecidableEq

/-- A row of the `agent_thoughts` table (`models/protocol.py`); the `type`
column is rendered `thought_type`, timestamps are seconds.  `content` and
`agent_name` are write-only in the source and elided. -/
structure AgentThought where
  protocol_id : String
  agent_role : String
  thought_type : String
  timestamp : Nat
deriving Repr, DecidableEq

/-- A row of the `protocol_versions` table (append-only audit trail). -/
structure ProtocolVersion where
  protocol_id : String
  version : Nat
  content : String
  author : String
deriving Repr, DecidableEq

/-- A row of the `protocols` table, restricted to the columns the workflow
reads or writes.  `current_draft` uses `""` for both NULL and the empty
string (Python treats both as falsy); the JSON columns use `none` for NULL. -/
structure Protocol where
  id : String
  intent : String
  protocol_type : String
  current_draft : String
  status : String
  iteration_count : Nat
  safety_score : Option SafetyScore
  empathy_metrics : Option EmpathyMetrics
deriving Repr, DecidableEq

/-- The database visible to one workflow step: the three entity tables. -/
structure DB where
  protocols : List Protocol
  versions : List ProtocolVersion
  thoughts : List AgentThought
deriving Repr, DecidableEq

/-- The LangGraph blackboard `ProtocolState` (`agents/state.py`), restricted
to the fields the routing and drafting logic reads or writes. -/
structure ProtocolState where
  protocol_id : String
  intent : String
  protocol_type : String
  current_draft : String
  safety_score : SafetyScore
  empathy_metrics : EmpathyMetrics
  iteration_count : Nat
  status : String
  next_agent : Option String
  needs_revision : Bool
  is_approved : Bool
  should_halt : Bool
  last_agent : String
  revision_reasons : List String
deriving Repr, DecidableEq

/-- `db.query(Protocol).filter(Protocol.id == protocol_id).first()`. -/
def firstProtocol (db : DB) (protocol_id : String) : Option Protocol :=
  db.protocols.find? (fun p => p.id == protocol_id)

/-- `save_agent_thought` (`agents/nodes/common.py`): append one
`AgentThought` row stamped with the current time. -/
def save_agent_thought (db : DB) (protocol_id agent_role thought_type : String)
    (now : Nat) : DB :=
  { db with thoughts := db.thoughts ++ [⟨protocol_id, agent_role, thought_type, now⟩] }

/-- Helper for `update_protocol_status`: set the status of the first row
matching the id, if it differs. -/
def setStatusFirst : List Protocol → String → String → List Protocol
  | [], _, _ => []
  | p :: ps, protocol_id, new_status =>
      if p.id = protocol_id then
        (if p.status = new_status then p :: ps
         else { p with status := new_status } :: ps)
      else p :: setStatusFirst ps protocol_id new_status

/-- `update_protocol_status` (`utils/protocol_state.py`). -/
def update_protocol_status (db : DB) (protocol_id new_status : String) : DB :=
  { db with protocols := setStatusFirst db.protocols protocol_id new_status }

/-- `sync_state_from_db` (`utils/protocol_state.py`, lines 8-31): overwrite
the blackboard from the protocol row.  Each `x or fallback` of the source
becomes a falsy test on the row value; `should_halt` and `is_approved` are
derived from the persisted status. -/
def sync_state_from_db (state : ProtocolState) (db : DB) : ProtocolState :=
  match firstProtocol db state.protocol_id with
  | none => state
  | some p =>
      { state with
        current_draft := if p.current_draft = "" then state.current_draft else p.current_draft
        safety_score := p.safety_score.getD state.safety_score
        empathy_metrics := p.empathy_metrics.getD state.empathy_metrics
        iteration_count := if p.iteration_count = 0 then state.iteration_count else p.iteration_count
        status := if p.status = "" then state.status else p.status
        is_approved := p.status == "approved"
        should_halt := p.status == "awaiting_approval" }

/-- `ProtocolService.has_agent_visited` (`services/protocol_service.py`,
lines 10-25): count the rows matching protocol and role (any type). -/
def has_agent_visited (db : DB) (protocol_id agent_role : String) : Bool :=
  let thought_count :=
    (db.thoughts.filter (fun t => t.protocol_id == protocol_id && t.agent_role == agent_role)).length
  decide (0 < thought_count)

/-- The filter part of `get_agent_visit_count`: all thoughts of this agent
for this protocol. -/
def thoughtsForAgent (db : DB) (protocol_id agent_role : String) : List AgentThought :=
  db.thoughts.filter (fun t => t.protocol_id == protocol_id && t.agent_role == agent_role)

/-- Stable insertion for `order_by(AgentThought.timestamp)`. -/
def insertByTimestamp (t : AgentThought) : List AgentThought → List AgentThought
  | [] => [t]
  | u :: us =>
      if t.timestamp < u.timestamp then t :: u :: us else u :: insertByTimestamp t us

/-- `order_by(AgentThought.timestamp)` as an insertion sort. -/
def orderByTimestamp : List AgentThought → List AgentThought
  | [] => []
  | t :: ts => insertByTimestamp t (orderByTimestamp ts)

/-- The clustering loop of `get_agent_visit_count` (lines 59-70): a thought
more than 120 seconds after the previous visit opens a new visit. -/
def visitClusterLoop (visit_count last_visit_time : Nat) : List AgentThought → Nat
  | [] => visit_count
  | t :: ts =>
      if 120 < t.timestamp - last_visit_time then
        visitClusterLoop (visit_count + 1) t.timestamp ts
      else
        visitClusterLoop visit_count last_visit_time ts

/-- `ProtocolService.get_agent_visit_count` (`services/protocol_service.py`,
lines 28-72): order the agent's thoughts by timestamp and count clusters
separated by more than a 2-minute gap. -/
def get_agent_visit_count (db : DB) (protocol_id agent_role : String) : Nat :=
  match orderByTimestamp (thoughtsForAgent db protocol_id agent_role) with
  | [] => 0
  | t :: rest => visitClusterLoop 1 t.timestamp rest

/-- Modelled from the spec (section 4.1, Visit counting): the count of
`AgentThought` rows of `type = "thought"` with matching `agent_role`, scoped
to the protocol.  This is the spec's prescribed visit counter, stated here
for comparison with the source's `get_agent_visit_count`. -/
def spec_thought_row_count (db : DB) (protocol_id agent_role : String) : Nat :=
  (db.thoughts.filter (fun t =>
    t.protocol_id == protocol_id && t.agent_role == agent_role && t.thought_type == "thought")).length

/-- The driver's stop test (`agents/graph.py`, line 188):
`thread_protocol.status not in ["reviewing", "drafting"]`. -/
def driver_stop_check (status : String) : Bool :=
  decide (status ∉ ["reviewing", "drafting"])

/-- Python `str.strip()` on the underlying character list (whitespace
removed from both ends). -/
def pyStrip (s : String) : String :=
  String.mk (((s.toList.dropWhile Char.isWhitespace).reverse.dropWhile
    Char.isWhitespace).reverse)

/-- Python slicing `s[:n]` by characters. -/
def takeChars (s : String) (n : Nat) : String :=
  String.mk (s.toList.take n)

/-- Python `str.lower()` by characters. -/
def pyLower (s : String) : String :=
  String.mk (s.toList.map Char.toLower)

/-- Python `int(s)` on a trimmed decimal literal with optional sign;
`none` models the `ValueError`. -/
def pyParseInt (s : String) : Option Int :=
  match (pyStrip s).toList with
  | [] => none
  | '-' :: ds =>
      if ds ≠ [] ∧ ds.all Char.isDigit then
        some (-(ds.foldl (fun a c => a * 10 + (c.toNat - '0'.toNat : Int)) 0))
      else none
  | ds =>
      if ds.all Char.isDigit then
        some (ds.foldl (fun a c => a * 10 + (c.toNat - '0'.toNat : Int)) 0)
      else none

/-- `max_iterations` (`agents/nodes/supervisor.py`, line 91). -/
def max_iterations : Nat := 5

/-- `max_visits_per_agent` (`agents/nodes/supervisor.py`, line 92). -/
def max_visits_per_agent : Nat := 3

/-- Outcome of the supervisor's LLM tie-break step: `err` models
`get_llm()`/`invoke` raising; `ok na ready` models the parsed decision
(`parse_json_response` returns the default `finish`/`is_ready=True` decision
on malformed output, which is the instance `ok "finish" true`). -/
inductive LLMRouting where
  | err : LLMRouting
  | ok (next_agent : String) (is_ready : Bool) : LLMRouting
deriving Repr, DecidableEq

/-- Lines 25-26 of `supervisor_node`: clear an invalid `next_agent`
inherited from a previous step. -/
def clearSupervisorNext (s : ProtocolState) : ProtocolState :=
  if s.next_agent = some "supervisor" then { s with next_agent := none } else s

/-- `supervisor_node` (`agents/nodes/supervisor.py`): the Router.  The
in-function constants `max_iterations`/`max_visits_per_agent` (lines 91-92)
are the module-level constants above.  Debug writes to stderr and the
`agent_notes` scratchpad appends are elided (never read by routing). -/
def supervisor_node (state0 : ProtocolState) (db0 : DB) (llm : LLMRouting)
    (now : Nat) : ProtocolState × DB :=
  let protocol_id := state0.protocol_id
  -- line 21: always sync state from database first
  let state1 := clearSupervisorNext (sync_state_from_db state0 db0)
  let iteration := state1.iteration_count
  -- line 30: the invocation's opening thought record
  let db1 := save_agent_thought db0 protocol_id "supervisor" "thought" now
  let routed : ProtocolState × DB :=
    if state1.should_halt = true ∨ state1.status = "awaiting_approval" then
      -- lines 37-50: halt precondition
      ({ state1 with next_agent := some "finish", status := "awaiting_approval" },
       save_agent_thought (update_protocol_status db1 protocol_id "awaiting_approval")
         protocol_id "supervisor" "action" now)
    else if state1.current_draft = "" ∨ pyStrip state1.current_draft = "" then
      -- lines 51-63: no draft yet
      ({ state1 with next_agent := some "drafter" },
       save_agent_thought db1 protocol_id "supervisor" "action" now)
    else if state1.needs_revision = true then
      -- lines 64-78: explicit revision request (one-shot trigger)
      ({ state1 with next_agent := some "drafter", needs_revision := false },
       save_agent_thought db1 protocol_id "supervisor" "action" now)
    else if 1 ≤ iteration ∧ state1.current_draft ≠ "" ∧ 100 < (pyStrip state1.current_draft).length then
      -- lines 79-352: substantive-draft branch
      let safety_visits := get_agent_visit_count db1 protocol_id "safety_guardian"
      let critic_visits := get_agent_visit_count db1 protocol_id "clinical_critic"
      let has_been_to_safety := 0 < safety_visits
      let has_been_to_critic := 0 < critic_visits
      -- line 88: re-sync from the database
      let state2 := sync_state_from_db state1 db1
      let safety_score := state2.safety_score.score
      if has_been_to_safety ∧ ¬ has_been_to_critic ∧
          critic_visits < max_visits_per_agent ∧ 0 < safety_score then
        -- lines 104-120: mandatory clinical-critic dispatch after safety review
        ({ state2 with next_agent := some "clinical_critic" },
         save_agent_thought db1 protocol_id "supervisor" "action" now)
      else if max_iterations < iteration ∨ max_visits_per_agent < safety_visits ∨
          (max_visits_per_agent ≤ critic_visits ∧ has_been_to_critic) then
        -- lines 124-141: hard workflow limits
        ({ state2 with
            next_agent := some "finish"
            status := "awaiting_approval"
            should_halt := true },
         save_agent_thought (update_protocol_status db1 protocol_id "awaiting_approval")
           protocol_id "supervisor" "action" now)
      else
        match llm with
        | LLMRouting.ok na0 ready0 =>
          -- lines 250-258: validate the suggested agent name
          let na1 := if na0 = "drafter" ∨ na0 = "safety_guardian" ∨
              na0 = "clinical_critic" ∨ na0 = "finish" then na0 else "finish"
          -- lines 260-292: post-decision validation of the LLM suggestion
          let validated : String × Bool × ProtocolState :=
            if has_been_to_safety ∧ ¬ has_been_to_critic ∧
                critic_visits < max_visits_per_agent ∧ 0 < safety_score then
              if na1 = "finish" ∨ na1 = "drafter" then ("clinical_critic", false, state2)
              else (na1, ready0, state2)
            else if has_been_to_critic ∧ 0 < safety_score ∧ safety_score < 50 ∧
                state2.needs_revision = false then
              ("drafter", false,
               { state2 with
                 needs_revision := true
                 revision_reasons :=
                   if "Critical safety issues" ∈ state2.revision_reasons then
                     state2.revision_reasons
                   else state2.revision_reasons ++ ["Critical safety issues (score < 50)"] })
            else (na1, ready0, state2)
          -- lines 294-315: apply the decision
          if validated.1 = "finish" ∨ validated.2.1 = true then
            ({ validated.2.2 with
                next_agent := some "finish"
                status := "awaiting_approval"
                should_halt := true },
             save_agent_thought (update_protocol_status db1 protocol_id "awaiting_approval")
               protocol_id "supervisor" "action" now)
          else
            ({ validated.2.2 with next_agent := some validated.1 },
             save_agent_thought db1 protocol_id "supervisor" "action" now)
        | LLMRouting.err =>
          -- lines 317-352: rule-based fallback when the LLM step raises
          if ¬ has_been_to_safety then
            ({ state2 with next_agent := some "safety_guardian" },
             save_agent_thought db1 protocol_id "supervisor" "action" now)
          else if 80 ≤ state2.safety_score.score ∧ ¬ has_been_to_critic then
            ({ state2 with next_agent := some "clinical_critic" },
             save_agent_thought db1 protocol_id "supervisor" "action" now)
          else if 80 ≤ state2.safety_score.score ∧ 70 ≤ state2.empathy_metrics.score then
            ({ state2 with
                next_agent := some "finish"
                status := "awaiting_approval"
                should_halt := true },
             save_agent_thought (update_protocol_status db1 protocol_id "awaiting_approval")
               protocol_id "supervisor" "action" now)
          else if has_been_to_safety ∧ has_been_to_critic then
            ({ state2 with
                next_agent := some "finish"
                status := "awaiting_approval"
                should_halt := true },
             save_agent_thought (update_protocol_status db1 protocol_id "awaiting_approval")
               protocol_id "supervisor" "action" now)
          else
            ({ state2 with
                next_agent := some "finish"
                status := "awaiting_approval"
                should_halt := true },
             save_agent_thought (update_protocol_status db1 protocol_id "awaiting_approval")
               protocol_id "supervisor" "action" now)
    else if state1.safety_score.score < 80 ∧ 0 < state1.safety_score.score then
      -- lines 353-367: safety below threshold (note: no dedup on this reason)
      ({ state1 with
          next_agent := some "drafter"
          needs_revision := true
          revision_reasons := state1.revision_reasons ++ ["Safety score below threshold"] },
       save_agent_thought db1 protocol_id "supervisor" "action" now)
    else if 0 < state1.empathy_metrics.score ∧ state1.empathy_metrics.score < 70 then
      -- lines 368-383: empathy below threshold (deduplicated)
      ({ state1 with
          next_agent := some "drafter"
          needs_revision := true
          revision_reasons :=
            if "Empathy score below threshold" ∈ state1.revision_reasons then
              state1.revision_reasons
            else state1.revision_reasons ++ ["Empathy score below threshold"] },
       save_agent_thought db1 protocol_id "supervisor" "action" now)
    else
      -- lines 384-399: no rule matched, finish for approval
      ({ state1 with
          next_agent := some "finish"
          status := "awaiting_approval"
          should_halt := true },
       save_agent_thought (update_protocol_status db1 protocol_id "awaiting_approval")
         protocol_id "supervisor" "action" now)
  -- lines 401-415: validity safety net on next_agent
  let checked : ProtocolState × DB :=
    if routed.1.next_agent = some "drafter" ∨ routed.1.next_agent = some "safety_guardian" ∨
        routed.1.next_agent = some "clinical_critic" ∨ routed.1.next_agent = some "halt" ∨
        routed.1.next_agent = some "finalize" ∨ routed.1.next_agent = some "finish" then
      routed
    else
      ({ routed.1 with
          next_agent := some "finish"
          status := "awaiting_approval"
          should_halt := true },
       save_agent_thought (update_protocol_status routed.2 protocol_id "awaiting_approval")
         protocol_id "supervisor" "feedback" now)
  -- lines 417-446: re-check the visit ceiling right before dispatch
  let final : ProtocolState × DB :=
    if checked.1.next_agent = some "clinical_critic" then
      if max_visits_per_agent ≤ get_agent_visit_count checked.2 protocol_id "clinical_critic" then
        ({ checked.1 with
            next_agent := some "finish"
            status := "awaiting_approval"
            should_halt := true },
         save_agent_thought (update_protocol_status checked.2 protocol_id "awaiting_approval")
           protocol_id "supervisor" "action" now)
      else checked
    else if checked.1.next_agent = some "safety_guardian" then
      if max_visits_per_agent ≤ get_agent_visit_count checked.2 protocol_id "safety_guardian" then
        ({ checked.1 with
            next_agent := some "finish"
            status := "awaiting_approval"
            should_halt := true },
         save_agent_thought (update_protocol_status checked.2 protocol_id "awaiting_approval")
           protocol_id "supervisor" "action" now)
      else checked
    else checked
  ({ final.1 with last_agent := "supervisor" }, final.2)

/-- `pat.isPrefixOf`-style check on character lists. -/
def matchesAt : List Char → List Char → Bool
  | [], _ => true
  | _ :: _, [] => false
  | p :: ps, c :: cs => p == c && matchesAt ps cs

/-- Substring occurrence on character lists. -/
def hasSubList (pat : List Char) : List Char → Bool
  | [] => pat.isEmpty
  | c :: cs => matchesAt pat (c :: cs) || hasSubList pat cs

/-- Python `pat in s` on strings. -/
def containsStr (s pat : String) : Bool :=
  hasSubList pat.toList s.toList

/-- `"503" in error_msg or "unreachable_backend" in error_msg or "Internal
server error" in error_msg` (`agents/nodes/drafter.py`, line 227). -/
def is_api_error (error_msg : String) : Bool :=
  containsStr error_msg "503" || containsStr error_msg "unreachable_backend" ||
    containsStr error_msg "Internal server error"

/-- `len([r for r in state.get("revision_reasons", []) if "Drafting error" in
r or "503" in r])` (`agents/nodes/drafter.py`, line 246). -/
def drafting_error_count (revision_reasons : List String) : Nat :=
  (revision_reasons.filter
    (fun r => containsStr r "Drafting error" || containsStr r "503")).length

/-- Outcome of the drafter's model call: `ok` carries the generated draft
text, `err` the exception message.  A failure is modelled as raised before
any streamed chunk was committed. -/
inductive DraftOutcome where
  | ok (draft_content : String)
  | err (msg : String)
deriving Repr, DecidableEq

/-- Helper for the drafter's success commit (lines 176-190): write draft,
status and iteration count onto the first matching protocol row. -/
def setDraftFirst : List Protocol → String → String → Nat → List Protocol
  | [], _, _, _ => []
  | p :: ps, protocol_id, draft, iter =>
      if p.id = protocol_id then
        { p with
          current_draft := draft
          status := "reviewing"
          iteration_count := iter } :: ps
      else p :: setDraftFirst ps protocol_id draft iter

/-- The `except` handler of `drafter_node` (`agents/nodes/drafter.py`, lines
224-267): classify the error, stop with `status = rejected` once at least two
drafting-error reasons are already recorded, otherwise record one
deduplicated drafting-error reason. -/
def drafterHandleError (state : ProtocolState) (db : DB) (error_msg : String)
    (now : Nat) : ProtocolState × DB :=
  let protocol_id := state.protocol_id
  -- line 232: feedback thought describing the error
  let db1 := save_agent_thought db protocol_id "drafter" "feedback" now
  let error_count := drafting_error_count state.revision_reasons
  if is_api_error error_msg = true ∧ 2 ≤ error_count then
    -- lines 247-259: too many API errors, halt the workflow
    ({ state with status := "rejected", next_agent := some "halt" },
     update_protocol_status
       (save_agent_thought db1 protocol_id "supervisor" "feedback" now)
       protocol_id "rejected")
  else
    -- lines 260-267: record the reason once (deduplicated by message)
    let error_reason := "Drafting error: " ++ takeChars error_msg 80
    if error_reason ∈ state.revision_reasons then (state, db1)
    else
      ({ state with
          needs_revision := true
          revision_reasons := state.revision_reasons ++ [error_reason] }, db1)

/-- `drafter_node` (`agents/nodes/drafter.py`): on success, replace the
draft, bump the iteration count, persist the row, append one
`ProtocolVersion` authored `"drafter"` and clear the revision flags; on
failure (including a missing protocol row, which raises into the same
handler) delegate to `drafterHandleError`.  Prompts and streaming chunk
bookkeeping are elided. -/
def drafter_node (state0 : ProtocolState) (db0 : DB) (outcome : DraftOutcome)
    (now : Nat) : ProtocolState × DB :=
  let protocol_id := state0.protocol_id
  -- line 25: the invocation's opening thought record
  let db1 := save_agent_thought db0 protocol_id "drafter" "thought" now
  let result : ProtocolState × DB :=
    match outcome with
    | DraftOutcome.err msg => drafterHandleError state0 db1 msg now
    | DraftOutcome.ok draft_content =>
      match firstProtocol db1 protocol_id with
      | none =>
          -- line 127: `raise ValueError(...)` lands in the same except block
          drafterHandleError state0 db1 ("Protocol " ++ protocol_id ++ " not found") now
      | some _ =>
          -- lines 176-190: final draft, status and iteration commit
          let new_iteration :=
            if state0.iteration_count = 0 then 1 else state0.iteration_count + 1
          let db2 := { db1 with
            protocols := setDraftFirst db1.protocols protocol_id draft_content new_iteration }
          -- lines 199-208: append-only version snapshot
          let db3 := { db2 with
            versions := db2.versions ++
              [⟨protocol_id, new_iteration, draft_content, "drafter"⟩] }
          -- line 214: action thought
          let db4 := save_agent_thought db3 protocol_id "drafter" "action" now
          -- lines 220-222: clear revision flags on success
          ({ state0 with
              current_draft := draft_content
              iteration_count := new_iteration
              needs_revision := false
              revision_reasons := [] }, db4)
  ({ result.1 with last_agent := "drafter" }, result.2)

/-- A parsed JSON score value as Python holds it after
`parse_json_response`: an integer, a string, or anything else (list, dict,
null) on which `int(..)` raises. -/
inductive PyVal where
  | pint (n : Int)
  | pstr (s : String)
  | pother
deriving Repr, DecidableEq

/-- First maximal digit run of a string: `re.findall(r"\d+", s)[0]`
(`agents/nodes/safety_guardian.py`, lines 81-83). -/
def firstDigitRun : List Char → Option (List Char)
  | [] => none
  | c :: cs => if c.isDigit then some (c :: cs.takeWhile Char.isDigit) else firstDigitRun cs

/-- Digits to the number they denote. -/
def digitsToNat (ds : List Char) : Nat :=
  ds.foldl (fun a c => a * 10 + (c.toNat - '0'.toNat)) 0

/-- Lines 77-84 of `safety_guardian_node`: coerce the parsed score to an
integer (extracting the first number from a string, defaulting to 75) and
clamp it into [0, 100].  `none` means `int(..)` raised, sending the whole
review into the except handler. -/
def safety_parsed_score (v : PyVal) : Option Int :=
  match v with
  | PyVal.pint n => some (max 0 (min 100 n))
  | PyVal.pstr s =>
      match firstDigitRun s.toList with
      | some ds => some (max 0 (min 100 (digitsToNat ds : Int)))
      | none => some (max 0 (min 100 75))
  | PyVal.pother => none

/-- `critical_keywords` (`agents/nodes/safety_guardian.py`, line 133). -/
def critical_keywords : List String :=
  ["self-harm", "suicide", "dangerous", "medical advice", "licensure", "unsafe"]

/-- The score stored by `safety_guardian_node` as a function of the parsed
score value and the normalized flag list: the clamp of lines 77-84, the
flag-count ceilings of lines 119-130 and the critical-keyword cap of lines
132-137; the except handler (line 188) stores the conservative 50. -/
def safety_guardian_score (v : PyVal) (flags : List String) : Int :=
  match safety_parsed_score v with
  | none => 50
  | some sc0 =>
      let flag_count := flags.length
      let sc1 :=
        if 5 ≤ flag_count then min sc0 75
        else if 3 ≤ flag_count then min sc0 80
        else if 1 ≤ flag_count then min sc0 90
        else sc0
      let has_critical :=
        flags.any (fun f => critical_keywords.any (fun k => containsStr (pyLower f) k))
      if has_critical = true ∧ 70 < sc1 then min sc1 70 else sc1

/-- The score stored by `clinical_critic_node` (`agents/nodes/
clinical_critic.py`, line 101): `int(empathy_data.get("score", 75))` with no
clamping; a string is parsed as a Python integer literal, and a `ValueError`
or `TypeError` sends the review into the except handler, which stores 70
(line 148). -/
def clinical_critic_score (v : PyVal) : Int :=
  match v with
  | PyVal.pint n => n
  | PyVal.pstr s =>
      match pyParseInt s with
      | some n => n
      | none => 70
  | PyVal.pother => 70

section HelperLemmas

@[simp] theorem clearSupervisorNext_protocol_id (s : ProtocolState) :
    (clearSupervisorNext s).protocol_id = s.protocol_id := by
  unfold clearSupervisorNext; split <;> rfl

@[simp] theorem clearSupervisorNext_should_halt (s : ProtocolState) :
    (clearSupervisorNext s).should_halt = s.should_halt := by
  unfold clearSupervisorNext; split <;> rfl

@[simp] theorem clearSupervisorNext_status (s : ProtocolState) :
    (clearSupervisorNext s).status = s.status := by
  unfold clearSupervisorNext; split <;> rfl

@[simp] theorem clearSupervisorNext_current_draft (s : ProtocolState) :
    (clearSupervisorNext s).current_draft = s.current_draft := by
  unfold clearSupervisorNext; split <;> rfl

@[simp] theorem clearSupervisorNext_needs_revision (s : ProtocolState) :
    (clearSupervisorNext s).needs_revision = s.needs_revision := by
  unfold clearSupervisorNext; split <;> rfl

@[simp] theorem clearSupervisorNext_iteration_count (s : ProtocolState) :
    (clearSupervisorNext s).iteration_count = s.iteration_count := by
  unfold clearSupervisorNext; split <;> rfl

@[simp] theorem clearSupervisorNext_safety_score (s : ProtocolState) :
    (clearSupervisorNext s).safety_score = s.safety_score := by
  unfold clearSupervisorNext; split <;> rfl

@[simp] theorem clearSupervisorNext_empathy_metrics (s : ProtocolState) :
    (clearSupervisorNext s).empathy_metrics = s.empathy_metrics := by
  unfold clearSupervisorNext; split <;> rfl

@[simp] theorem clearSupervisorNext_revision_reasons (s : ProtocolState) :
    (clearSupervisorNext s).revision_reasons = s.revision_reasons := by
  unfold clearSupervisorNext; split <;> rfl

@[simp] theorem firstProtocol_save_agent_thought (db : DB) (p r tt : String)
    (now : Nat) (q : String) :
    firstProtocol (save_agent_thought db p r tt now) q = firstProtocol db q := rfl

@[simp] theorem sync_save_agent_thought (s : ProtocolState) (db : DB)
    (p r tt : String) (now : Nat) :
    sync_state_from_db s (save_agent_thought db p r tt now) = sync_state_from_db s db := rfl

theorem sync_idem (s : ProtocolState) (db : DB) :
    sync_state_from_db (sync_state_from_db s db) db = sync_state_from_db s db := by
  unfold sync_state_from_db
  rcases h : firstProtocol db s.protocol_id with _ | p
  · simp [h]
  · simp only [h]
    rcases hs : p.safety_score with _ | sc <;>
      rcases he : p.empathy_metrics with _ | em <;>
      by_cases hd : p.current_draft = "" <;>
      by_cases hi : p.iteration_count = 0 <;>
      by_cases hst : p.status = "" <;>
      simp [h, hs, he, hd, hi, hst]

theorem sync_clear (s : ProtocolState) (db : DB) :
    sync_state_from_db (clearSupervisorNext s) db =
      clearSupervisorNext (sync_state_from_db s db) := by
  unfold clearSupervisorNext sync_state_from_db
  rcases h : firstProtocol db s.protocol_id with _ | p <;>
    by_cases hn : s.next_agent = some "supervisor" <;>
    simp [h, hn]

theorem visit_count_append_other_role (db : DB) (pid other tt : String)
    (now : Nat) (role : String) (h : other ≠ role) :
    get_agent_visit_count (save_agent_thought db pid other tt now) pid role =
      get_agent_visit_count db pid role := by
  unfold get_agent_visit_count thoughtsForAgent save_agent_thought
  have : (db.thoughts ++ [AgentThought.mk pid other tt now]).filter
      (fun t => t.protocol_id == pid && t.agent_role == role) =
      db.thoughts.filter (fun t => t.protocol_id == pid && t.agent_role == role) := by
    rw [List.filter_append]
    have hb : (other == role) = false := beq_eq_false_iff_ne.mpr h
    simp [List.filter, hb]
  rw [this]

end HelperLemmas

/-! ## Claim C1: visit counting -/

/-- A protocol `p1` whose safety reviewer emitted thought/action/thought
rows inside one 2-minute window, and whose clinical critic emitted a single
action-type row. -/
def c1db : DB :=
  ⟨[], [],
   [⟨"p1", "safety_guardian", "thought", 0⟩,
    ⟨"p1", "safety_guardian", "action", 30⟩,
    ⟨"p1", "safety_guardian", "thought", 60⟩,
    ⟨"p1", "clinical_critic", "action", 10⟩]⟩

/-- C1: the source computes visit counts by clustering thoughts into
2-minute time windows, not by counting `type = "thought"` rows: on `c1db`
the safety reviewer has two thought-type rows but `get_agent_visit_count`
returns 1, and `has_agent_visited` reports the clinical critic visited on an
action-only trail (zero thought-type rows). -/
theorem visit_count_uses_time_window_clustering :
    get_agent_visit_count c1db "p1" "safety_guardian" = 1 ∧
    spec_thought_row_count c1db "p1" "safety_guardian" = 2 ∧
    get_agent_visit_count c1db "p1" "safety_guardian" ≠
      spec_thought_row_count c1db "p1" "safety_guardian" ∧
    has_agent_visited c1db "p1" "clinical_critic" = true ∧
    spec_thought_row_count c1db "p1" "clinical_critic" = 0 :=
  ⟨rfl, rfl, by decide, rfl, rfl⟩

/-! ## Claim C10: the database sync overwrites should_halt -/

/-- C10: after `sync_state_from_db`, `should_halt` holds exactly when the
persisted status is `awaiting_approval`, whatever its previous in-memory
value; in particular it is false when the stored status is `rejected` or
`approved`. -/
theorem sync_overwrites_should_halt (state : ProtocolState) (db : DB)
    (p : Protocol) (hp : firstProtocol db state.protocol_id = some p) :
    ((sync_state_from_db state db).should_halt = true ↔ p.status = "awaiting_approval") ∧
    (p.status = "rejected" → (sync_state_from_db state db).should_halt = false) ∧
    (p.status = "approved" → (sync_state_from_db state db).should_halt = false) := by
  unfold sync_state_from_db
  rw [hp]
  refine ⟨by simp, ?_, ?_⟩ <;> intro h <;> simp [h]

/-- Blackboard carrying a stale `should_halt = true` for protocol `p10`. -/
def w10state : ProtocolState :=
  { protocol_id := "p10", intent := "", protocol_type := "", current_draft := ""
    safety_score := ⟨0, [], ""⟩, empathy_metrics := ⟨0, "", []⟩
    iteration_count := 0, status := "drafting", next_agent := none
    needs_revision := false, is_approved := false, should_halt := true
    last_agent := "", revision_reasons := [] }

/-- Persisted row for `p10` with status `rejected`. -/
def w10row : Protocol :=
  { id := "p10", intent := "", protocol_type := "", current_draft := ""
    status := "rejected", iteration_count := 0
    safety_score := none, empathy_metrics := none }

/-- Database holding only `w10row`. -/
def w10db : DB := ⟨[w10row], [], []⟩

/-- Witness for C10: a stale in-memory `should_halt = true` is discarded
when the stored status is `rejected`. -/
theorem sync_overwrites_should_halt_witness :
    (sync_state_from_db w10state w10db).should_halt = false :=
  (sync_overwrites_should_halt w10state w10db w10row rfl).2.1 rfl

/-! ## Claim C7: reviewer score clamping -/

/-- C7: the clinical critic stores `int(score)` with no clamping, so a model
score of 150 is stored as 150, outside [0,100]; the safety guardian clamps
the same value to 100. -/
theorem critic_score_not_clamped :
    clinical_critic_score (PyVal.pint 150) = 150 ∧
    ¬ clinical_critic_score (PyVal.pint 150) ≤ 100 ∧
    safety_guardian_score (PyVal.pint 150) [] = 100 := by
  refine ⟨rfl, by decide, rfl⟩

/-! ## Claim C6: deduplication of revision reasons -/

/-- Blackboard for `p6` that already records the safety revision reason,
with `needs_revision` cleared (as the Router leaves it after dispatching the
revision) and a short draft, so the deterministic scoring branch runs. -/
def c6state : ProtocolState :=
  { protocol_id := "p6", intent := "", protocol_type := "", current_draft := "short draft"
    safety_score := ⟨60, [], ""⟩, empathy_metrics := ⟨75, "", []⟩
    iteration_count := 1, status := "reviewing", next_agent := none
    needs_revision := false, is_approved := false, should_halt := false
    last_agent := "", revision_reasons := ["Safety score below threshold"] }

/-- Persisted row matching `c6state` (safety 60, empathy 75). -/
def c6db : DB :=
  ⟨[{ id := "p6", intent := "", protocol_type := "", current_draft := "short draft"
      status := "reviewing", iteration_count := 1
      safety_score := some ⟨60, [], ""⟩, empathy_metrics := some ⟨75, "", []⟩ }],
   [],
   [⟨"p6", "safety_guardian", "thought", 0⟩, ⟨"p6", "clinical_critic", "thought", 10⟩]⟩

/-- Same situation for the empathy rule: reason already present, safety
acceptable (85), empathy 69. -/
def c6estate : ProtocolState :=
  { protocol_id := "p6", intent := "", protocol_type := "", current_draft := "short draft"
    safety_score := ⟨85, [], ""⟩, empathy_metrics := ⟨69, "", []⟩
    iteration_count := 1, status := "reviewing", next_agent := none
    needs_revision := false, is_approved := false, should_halt := false
    last_agent := "", revision_reasons := ["Empathy score below threshold"] }

/-- Persisted row matching `c6estate` (safety 85, empathy 69). -/
def c6edb : DB :=
  ⟨[{ id := "p6", intent := "", protocol_type := "", current_draft := "short draft"
      status := "reviewing", iteration_count := 1
      safety_score := some ⟨85, [], ""⟩, empathy_metrics := some ⟨69, "", []⟩ }],
   [],
   [⟨"p6", "safety_guardian", "thought", 0⟩, ⟨"p6", "clinical_critic", "thought", 10⟩]⟩

/-- C6: re-evaluating the safety rule duplicates its reason ("Safety score
below threshold" ends up twice), while the parallel empathy rule is
deduplicated (stays at one copy). -/
theorem safety_reason_appended_without_dedup :
    (supervisor_node c6state c6db LLMRouting.err 100).1.revision_reasons.count
      "Safety score below threshold" = 2 ∧
    (supervisor_node c6estate c6edb LLMRouting.err 100).1.revision_reasons.count
      "Empathy score below threshold" = 1 :=
  ⟨rfl, rfl⟩

/-! ## Claim C2: mandatory tone review after safety review -/

/-- Blackboard for `p2`: safety reviewed once with score 60, critic never
visited, but the draft is only 16 characters, so the substantive-draft gate
of line 79 fails. -/
def c2state : ProtocolState :=
  { protocol_id := "p2", intent := "", protocol_type := "", current_draft := "short draft text"
    safety_score := ⟨60, [], ""⟩, empathy_metrics := ⟨0, "", []⟩
    iteration_count := 1, status := "reviewing", next_agent := none
    needs_revision := false, is_approved := false, should_halt := false
    last_agent := "", revision_reasons := [] }

/-- Persisted state matching `c2state`: one safety-guardian visit, no
clinical-critic visit. -/
def c2db : DB :=
  ⟨[{ id := "p2", intent := "", protocol_type := "", current_draft := "short draft text"
      status := "reviewing", iteration_count := 1
      safety_score := some ⟨60, [], ""⟩, empathy_metrics := some ⟨0, "", []⟩ }],
   [],
   [⟨"p2", "safety_guardian", "thought", 0⟩]⟩

/-- C2 counterexample: safety reviewed (score 60 > 0), tone reviewer never
visited, no ceiling anywhere near, yet the Router decides `drafter`,
because the mandatory-sequencing rule only exists inside the
substantive-draft branch (iteration ≥ 1 and stripped draft > 100 chars) and
this draft is short. -/
theorem mandatory_critic_counterexample :
    get_agent_visit_count c2db "p2" "safety_guardian" = 1 ∧
    get_agent_visit_count c2db "p2" "clinical_critic" = 0 ∧
    (sync_state_from_db c2state c2db).safety_score.score = 60 ∧
    (sync_state_from_db c2state c2db).iteration_count = 1 ∧
    (supervisor_node c2state c2db LLMRouting.err 500).1.next_agent = some "drafter" :=
  ⟨rfl, rfl, rfl, rfl, rfl⟩

/-- C2 amended: whenever the synced state additionally clears the
substantive-draft gate (iteration ≥ 1 and stripped draft longer than 100
characters) and no earlier rule fires (no halt, non-blank draft, no pending
revision request), a visited safety reviewer with positive score and a
never-visited tone reviewer force the decision `clinical_critic`, whatever
the score and whatever the LLM suggested. -/
theorem mandatory_critic_after_safety_review (state : ProtocolState) (db : DB)
    (llm : LLMRouting) (now : Nat)
    (h1 : (sync_state_from_db state db).should_halt = false)
    (h2 : (sync_state_from_db state db).status ≠ "awaiting_approval")
    (h3 : (sync_state_from_db state db).needs_revision = false)
    (h4 : 1 ≤ (sync_state_from_db state db).iteration_count)
    (h5 : 100 < (pyStrip (sync_state_from_db state db).current_draft).length)
    (h6 : 0 < get_agent_visit_count db state.protocol_id "safety_guardian")
    (h7 : get_agent_visit_count db state.protocol_id "clinical_critic" = 0)
    (h8 : 0 < (sync_state_from_db state db).safety_score.score) :
    (supervisor_node state db llm now).1.next_agent = some "clinical_critic" := by
  have hsup_sg : ("supervisor" : String) ≠ "safety_guardian" := by decide
  have hsup_cc : ("supervisor" : String) ≠ "clinical_critic" := by decide
  have hne : (sync_state_from_db state db).current_draft ≠ "" := by
    intro h
    rw [h] at h5
    exact absurd h5 (by decide)
  have hsne : pyStrip (sync_state_from_db state db).current_draft ≠ "" := by
    intro h
    rw [h] at h5
    exact absurd h5 (by decide)
  simp [supervisor_node, sync_save_agent_thought, sync_clear, sync_idem,
    max_iterations, max_visits_per_agent,
    visit_count_append_other_role db state.protocol_id "supervisor" "thought" now
      "safety_guardian" hsup_sg,
    visit_count_append_other_role db state.protocol_id "supervisor" "thought" now
      "clinical_critic" hsup_cc,
    visit_count_append_other_role
      (save_agent_thought db state.protocol_id "supervisor" "thought" now)
      state.protocol_id "supervisor" "action" now "clinical_critic" hsup_cc,
    h1, h2, h3, h4, h5, h6, h7, h8, hne, hsne]

/-- A 150-character draft, long enough to clear the 100-character gate. -/
def longDraft : String := String.mk (List.replicate 150 'a')

/-- Blackboard for `p2w`: long draft, safety reviewed with the low score 60,
critic never visited. -/
def w2state : ProtocolState :=
  { protocol_id := "p2w", intent := "", protocol_type := "", current_draft := longDraft
    safety_score := ⟨60, [], ""⟩, empathy_metrics := ⟨0, "", []⟩
    iteration_count := 2, status := "reviewing", next_agent := none
    needs_revision := false, is_approved := false, should_halt := false
    last_agent := "", revision_reasons := [] }

/-- Persisted state matching `w2state`. -/
def w2db : DB :=
  ⟨[{ id := "p2w", intent := "", protocol_type := "", current_draft := longDraft
      status := "reviewing", iteration_count := 2
      safety_score := some ⟨60, [], ""⟩, empathy_metrics := some ⟨0, "", []⟩ }],
   [],
   [⟨"p2w", "safety_guardian", "thought", 0⟩]⟩

set_option maxRecDepth 8192 in
/-- Witness for the amended C2: with the substantive-draft gate cleared, a
safety score of 60 and an LLM suggestion of `finish` still yield
`clinical_critic`. -/
theorem mandatory_critic_after_safety_review_witness :
    (supervisor_node w2state w2db (LLMRouting.ok "finish" true) 999).1.next_agent =
      some "clinical_critic" :=
  mandatory_critic_after_safety_review w2state w2db (LLMRouting.ok "finish" true) 999
    (by decide) (by decide) (by decide) (by decide) (by decide) (by decide)
    (by decide) (by decide)

/-! ## Claim C3: the hard iteration ceiling -/

/-- Blackboard for `p3` at iteration 5 with a blank draft. -/
def c3state : ProtocolState :=
  { protocol_id := "p3", intent := "", protocol_type := "", current_draft := ""
    safety_score := ⟨0, [], ""⟩, empathy_metrics := ⟨0, "", []⟩
    iteration_count := 5, status := "drafting", next_agent := none
    needs_revision := false, is_approved := false, should_halt := false
    last_agent := "", revision_reasons := [] }

/-- Persisted row for `p3`: iteration 5, no draft, no reviews. -/
def c3db : DB :=
  ⟨[{ id := "p3", intent := "", protocol_type := "", current_draft := ""
      status := "drafting", iteration_count := 5
      safety_score := none, empathy_metrics := none }],
   [], []⟩

/-- C3 counterexample: at iteration_count = 5 the Router does not finish:
the ceiling test is `iteration > 5` and sits inside the substantive-draft
branch, so a blank draft at iteration 5 is routed to `drafter` and no
`awaiting_approval` transition happens. -/
theorem iteration_ceiling_counterexample :
    (sync_state_from_db c3state c3db).iteration_count = 5 ∧
    (supervisor_node c3state c3db LLMRouting.err 0).1.next_agent = some "drafter" ∧
    (supervisor_node c3state c3db LLMRouting.err 0).1.status ≠ "awaiting_approval" :=
  ⟨rfl, rfl, by decide⟩

/-- C3 amended: the ceiling fires once iteration_count exceeds 5 (that is,
at 6 or more), and only on the substantive-draft path (no halt, non-blank
stripped draft over 100 characters, no pending revision request) when the
mandatory tone-review rule does not apply (safety never visited, or tone
already visited, or no positive safety score); there the decision is
`finish` with status `awaiting_approval`, regardless of scores and of the
LLM. -/
theorem iteration_ceiling_fires_above_five (state : ProtocolState) (db : DB)
    (llm : LLMRouting) (now : Nat)
    (h1 : (sync_state_from_db state db).should_halt = false)
    (h2 : (sync_state_from_db state db).status ≠ "awaiting_approval")
    (h3 : (sync_state_from_db state db).needs_revision = false)
    (h5 : 100 < (pyStrip (sync_state_from_db state db).current_draft).length)
    (hiter : 5 < (sync_state_from_db state db).iteration_count)
    (hm : get_agent_visit_count db state.protocol_id "safety_guardian" = 0 ∨
          0 < get_agent_visit_count db state.protocol_id "clinical_critic" ∨
          (sync_state_from_db state db).safety_score.score ≤ 0) :
    (supervisor_node state db llm now).1.next_agent = some "finish" ∧
    (supervisor_node state db llm now).1.status = "awaiting_approval" := by
  have hsup_sg : ("supervisor" : String) ≠ "safety_guardian" := by decide
  have hsup_cc : ("supervisor" : String) ≠ "clinical_critic" := by decide
  have h4 : 1 ≤ (sync_state_from_db state db).iteration_count := by omega
  have hne : (sync_state_from_db state db).current_draft ≠ "" := by
    intro h
    rw [h] at h5
    exact absurd h5 (by decide)
  have hsne : pyStrip (sync_state_from_db state db).current_draft ≠ "" := by
    intro h
    rw [h] at h5
    exact absurd h5 (by decide)
  rcases hm with hm | hm | hm
  · simp [supervisor_node, sync_save_agent_thought, sync_clear, sync_idem,
      max_iterations, max_visits_per_agent,
      visit_count_append_other_role db state.protocol_id "supervisor" "thought" now
        "safety_guardian" hsup_sg,
      visit_count_append_other_role db state.protocol_id "supervisor" "thought" now
        "clinical_critic" hsup_cc,
      h1, h2, h3, h4, h5, hiter, hm, hne, hsne]
  · simp [supervisor_node, sync_save_agent_thought, sync_clear, sync_idem,
      max_iterations, max_visits_per_agent,
      visit_count_append_other_role db state.protocol_id "supervisor" "thought" now
        "safety_guardian" hsup_sg,
      visit_count_append_other_role db state.protocol_id "supervisor" "thought" now
        "clinical_critic" hsup_cc,
      h1, h2, h3, h4, h5, hiter, hm, hne, hsne]
  · have hm' : ¬(0 < (sync_state_from_db state db).safety_score.score) := not_lt.mpr hm
    simp [supervisor_node, sync_save_agent_thought, sync_clear, sync_idem,
      max_iterations, max_visits_per_agent,
      visit_count_append_other_role db state.protocol_id "supervisor" "thought" now
        "safety_guardian" hsup_sg,
      visit_count_append_other_role db state.protocol_id "supervisor" "thought" now
        "clinical_critic" hsup_cc,
      h1, h2, h3, h4, h5, hiter, hm', hne, hsne]

/-- Blackboard for `p3w` at iteration 6 with a long draft and no reviewer
visits. -/
def w3state : ProtocolState :=
  { protocol_id := "p3w", intent := "", protocol_type := "", current_draft := longDraft
    safety_score := ⟨0, [], ""⟩, empathy_metrics := ⟨0, "", []⟩
    iteration_count := 6, status := "reviewing", next_agent := none
    needs_revision := false, is_approved := false, should_halt := false
    last_agent := "", revision_reasons := [] }

/-- Persisted row matching `w3state`. -/
def w3db : DB :=
  ⟨[{ id := "p3w", intent := "", protocol_type := "", current_draft := longDraft
      status := "reviewing", iteration_count := 6
      safety_score := none, empathy_metrics := none }],
   [], []⟩

set_option maxRecDepth 8192 in
/-- Witness for the amended C3: at iteration 6 with a substantive draft and
no evaluator ever run, the Router finishes with `awaiting_approval`. -/
theorem iteration_ceiling_fires_above_five_witness :
    (supervisor_node w3state w3db LLMRouting.err 5).1.next_agent = some "finish" ∧
    (supervisor_node w3state w3db LLMRouting.err 5).1.status = "awaiting_approval" :=
  iteration_ceiling_fires_above_five w3state w3db LLMRouting.err 5
    (by decide) (by decide) (by decide) (by decide) (by decide) (Or.inl (by decide))

/-! ## Claim C4: rejected is not treated as terminal by the Router -/

/-- Persisted row for `p4`: externally rejected, blank draft. -/
def c4row : Protocol :=
  { id := "p4", intent := "", protocol_type := "", current_draft := ""
    status := "rejected", iteration_count := 1
    safety_score := none, empathy_metrics := none }

/-- Database holding only `c4row`. -/
def c4db : DB := ⟨[c4row], [], []⟩

/-- Blackboard for `p4` before the Router syncs it. -/
def c4state : ProtocolState :=
  { protocol_id := "p4", intent := "", protocol_type := "", current_draft := ""
    safety_score := ⟨0, [], ""⟩, empathy_metrics := ⟨0, "", []⟩
    iteration_count := 1, status := "drafting", next_agent := none
    needs_revision := false, is_approved := false, should_halt := false
    last_agent := "", revision_reasons := [] }

/-- C4 counterexample: with persisted status `rejected` the halt rule does
not fire (the sync leaves `should_halt = false` and rule 1 only checks
`should_halt` and `awaiting_approval`), and the Router dispatches the
drafter on the blank draft. -/
theorem rejected_status_counterexample :
    (sync_state_from_db c4state c4db).status = "rejected" ∧
    (sync_state_from_db c4state c4db).should_halt = false ∧
    (supervisor_node c4state c4db LLMRouting.err 0).1.next_agent = some "drafter" :=
  ⟨rfl, rfl, rfl⟩

/-- C4 amended: the Router itself never treats `rejected` as terminal - its
rule 1 tests only `should_halt` and `awaiting_approval`, and the sync maps a
rejected row to `should_halt = false`, so a rejected protocol with a blank
draft is still routed to `drafter`.  What stops a rejected workflow is the
driver loop, whose stop test fires on any status outside
`{reviewing, drafting}`. -/
theorem rejected_is_not_router_terminal (state : ProtocolState) (db : DB)
    (p : Protocol) (llm : LLMRouting) (now : Nat)
    (hp : firstProtocol db state.protocol_id = some p)
    (hst : p.status = "rejected") :
    (sync_state_from_db state db).should_halt = false ∧
    (sync_state_from_db state db).status = "rejected" ∧
    driver_stop_check "rejected" = true ∧
    ((sync_state_from_db state db).current_draft = "" →
      (supervisor_node state db llm now).1.next_agent = some "drafter") := by
  have hh : (sync_state_from_db state db).should_halt = false := by
    unfold sync_state_from_db
    rw [hp]
    simp [hst]
  have hs : (sync_state_from_db state db).status = "rejected" := by
    unfold sync_state_from_db
    rw [hp]
    simp [hst]
  refine ⟨hh, hs, by decide, ?_⟩
  intro hdraft
  have h2 : (sync_state_from_db state db).status ≠ "awaiting_approval" := by
    rw [hs]; decide
  simp [supervisor_node, sync_save_agent_thought, sync_clear, sync_idem, hh, h2, hdraft]

/-- Witness for the amended C4: on the concrete rejected protocol the Router
still answers `drafter`. -/
theorem rejected_is_not_router_terminal_witness :
    (supervisor_node c4state c4db LLMRouting.err 0).1.next_agent = some "drafter" :=
  (rejected_is_not_router_terminal c4state c4db c4row LLMRouting.err 0 rfl rfl).2.2.2 rfl

/-! ## Claim C5: the 80/70 score boundaries -/

/-- Blackboard for `p5`: long draft, both reviewers completed, safety 79,
empathy 75. -/
def c5state : ProtocolState :=
  { protocol_id := "p5", intent := "", protocol_type := "", current_draft := longDraft
    safety_score := ⟨79, [], ""⟩, empathy_metrics := ⟨75, "", []⟩
    iteration_count := 2, status := "reviewing", next_agent := none
    needs_revision := false, is_approved := false, should_halt := false
    last_agent := "", revision_reasons := [] }

/-- Persisted state matching `c5state`: one visit each for both
reviewers. -/
def c5db : DB :=
  ⟨[{ id := "p5", intent := "", protocol_type := "", current_draft := longDraft
      status := "reviewing", iteration_count := 2
      safety_score := some ⟨79, [], ""⟩, empathy_metrics := some ⟨75, "", []⟩ }],
   [],
   [⟨"p5", "safety_guardian", "thought", 0⟩, ⟨"p5", "clinical_critic", "thought", 10⟩]⟩

set_option maxRecDepth 8192 in
/-- C5 counterexample: with both reviewers completed and safety exactly 79,
the Router does not revise.  The substantive-draft branch is taken, the LLM
step fails over to the fallback rules, and `both reviewers completed` maps
to `finish` - `needs_revision` stays false despite 79 < 80. -/
theorem safety_79_not_revised_counterexample :
    get_agent_visit_count c5db "p5" "safety_guardian" = 1 ∧
    get_agent_visit_count c5db "p5" "clinical_critic" = 1 ∧
    (sync_state_from_db c5state c5db).safety_score.score = 79 ∧
    (supervisor_node c5state c5db LLMRouting.err 0).1.next_agent = some "finish" ∧
    (supervisor_node c5state c5db LLMRouting.err 0).1.needs_revision = false :=
  ⟨rfl, rfl, rfl, rfl, rfl⟩

/-- C5 amended: the 80/79 and 70/69 boundary semantics hold in the Router's
deterministic scoring chain, which is reached exactly when the
substantive-draft gate fails (iteration_count = 0 or stripped draft at most
100 characters) and no earlier rule fires: a positive safety score below 80
yields `drafter` with `needs_revision`; otherwise a positive empathy score
below 70 yields `drafter` with `needs_revision`; otherwise the Router
finishes into `awaiting_approval` (so safety 80 / empathy 70 are
accepted). -/
theorem deterministic_branch_boundary_80_70 (state : ProtocolState) (db : DB)
    (llm : LLMRouting) (now : Nat)
    (h1 : (sync_state_from_db state db).should_halt = false)
    (h2 : (sync_state_from_db state db).status ≠ "awaiting_approval")
    (h3 : (sync_state_from_db state db).needs_revision = false)
    (hnb : (sync_state_from_db state db).iteration_count = 0 ∨
           (pyStrip (sync_state_from_db state db).current_draft).length ≤ 100)
    (hsne : pyStrip (sync_state_from_db state db).current_draft ≠ "") :
    ((sync_state_from_db state db).safety_score.score < 80 ∧
        0 < (sync_state_from_db state db).safety_score.score →
      (supervisor_node state db llm now).1.next_agent = some "drafter" ∧
      (supervisor_node state db llm now).1.needs_revision = true) ∧
    (¬((sync_state_from_db state db).safety_score.score < 80 ∧
        0 < (sync_state_from_db state db).safety_score.score) →
      0 < (sync_state_from_db state db).empathy_metrics.score ∧
        (sync_state_from_db state db).empathy_metrics.score < 70 →
      (supervisor_node state db llm now).1.next_agent = some "drafter" ∧
      (supervisor_node state db llm now).1.needs_revision = true) ∧
    (¬((sync_state_from_db state db).safety_score.score < 80 ∧
        0 < (sync_state_from_db state db).safety_score.score) →
      ¬(0 < (sync_state_from_db state db).empathy_metrics.score ∧
        (sync_state_from_db state db).empathy_metrics.score < 70) →
      (supervisor_node state db llm now).1.next_agent = some "finish" ∧
      (supervisor_node state db llm now).1.status = "awaiting_approval") := by
  have hne : (sync_state_from_db state db).current_draft ≠ "" := by
    intro h
    apply hsne
    rw [h]
    rfl
  rcases hnb with hit | hlen
  · refine ⟨?_, ?_, ?_⟩
    · rintro ⟨hb, ha⟩
      constructor <;>
        simp [supervisor_node, sync_save_agent_thought, sync_clear, sync_idem,
          h1, h2, h3, hit, hne, hsne, ha, hb]
    · intro hs he
      constructor <;>
        simp [supervisor_node, sync_save_agent_thought, sync_clear, sync_idem,
          h1, h2, h3, hit, hne, hsne, hs, he.1, he.2]
    · intro hs he
      constructor <;>
        simp [supervisor_node, sync_save_agent_thought, sync_clear, sync_idem,
          h1, h2, h3, hit, hne, hsne, hs, he]
  · have hlt : ¬(100 < (pyStrip (sync_state_from_db state db).current_draft).length) :=
      not_lt.mpr hlen
    refine ⟨?_, ?_, ?_⟩
    · rintro ⟨hb, ha⟩
      constructor <;>
        simp [supervisor_node, sync_save_agent_thought, sync_clear, sync_idem,
          h1, h2, h3, hlt, hne, hsne, ha, hb]
    · intro hs he
      constructor <;>
        simp [supervisor_node, sync_save_agent_thought, sync_clear, sync_idem,
          h1, h2, h3, hlt, hne, hsne, hs, he.1, he.2]
    · intro hs he
      constructor <;>
        simp [supervisor_node, sync_save_agent_thought, sync_clear, sync_idem,
          h1, h2, h3, hlt, hne, hsne, hs, he]

/-- Blackboard for `p5w`: short draft, both reviewers done, safety 79. -/
def w5state : ProtocolState :=
  { protocol_id := "p5w", intent := "", protocol_type := "", current_draft := "short draft"
    safety_score := ⟨79, [], ""⟩, empathy_metrics := ⟨75, "", []⟩
    iteration_count := 1, status := "reviewing", next_agent := none
    needs_revision := false, is_approved := false, should_halt := false
    last_agent := "", revision_reasons := [] }

/-- Persisted state matching `w5state`. -/
def w5db : DB :=
  ⟨[{ id := "p5w", intent := "", protocol_type := "", current_draft := "short draft"
      status := "reviewing", iteration_count := 1
      safety_score := some ⟨79, [], ""⟩, empathy_metrics := some ⟨75, "", []⟩ }],
   [],
   [⟨"p5w", "safety_guardian", "thought", 0⟩, ⟨"p5w", "clinical_critic", "thought", 10⟩]⟩

/-- Witness for the amended C5: in the deterministic chain, safety 79
triggers `drafter` with `needs_revision`. -/
theorem deterministic_branch_boundary_80_70_witness :
    (supervisor_node w5state w5db LLMRouting.err 0).1.next_agent = some "drafter" ∧
    (supervisor_node w5state w5db LLMRouting.err 0).1.needs_revision = true :=
  (deterministic_branch_boundary_80_70 w5state w5db LLMRouting.err 0
    (by decide) (by decide) (by decide) (Or.inr (by decide)) (by decide)).1
    ⟨by decide, by decide⟩

/-! ## Claim C8: escalation after repeated transient drafting failures -/

/-- Fresh blackboard for `p8` with no recorded revision reasons. -/
def c8state : ProtocolState :=
  { protocol_id := "p8", intent := "", protocol_type := "", current_draft := ""
    safety_score := ⟨0, [], ""⟩, empathy_metrics := ⟨0, "", []⟩
    iteration_count := 0, status := "drafting", next_agent := none
    needs_revision := false, is_approved := false, should_halt := false
    last_agent := "", revision_reasons := [] }

/-- Persisted row for `p8`. -/
def c8db : DB :=
  ⟨[{ id := "p8", intent := "", protocol_type := "", current_draft := ""
      status := "drafting", iteration_count := 0
      safety_score := none, empathy_metrics := none }],
   [], []⟩

/-- The transient error raised by both failures. -/
def c8msg : String := "503 Service Unavailable"

/-- C8 counterexample: after two consecutive identical 503 failures the
workflow has not stopped - the status is still `drafting`, not `rejected`,
because rejection requires two already-recorded drafting-error reasons and
the identical second failure is deduplicated away, leaving the count at
one. -/
theorem two_api_failures_not_rejected :
    is_api_error c8msg = true ∧
    (drafter_node (drafter_node c8state c8db (DraftOutcome.err c8msg) 0).1
        (drafter_node c8state c8db (DraftOutcome.err c8msg) 0).2
        (DraftOutcome.err c8msg) 60).1.status = "drafting" ∧
    (drafter_node (drafter_node c8state c8db (DraftOutcome.err c8msg) 0).1
        (drafter_node c8state c8db (DraftOutcome.err c8msg) 0).2
        (DraftOutcome.err c8msg) 60).1.status ≠ "rejected" ∧
    (drafter_node (drafter_node c8state c8db (DraftOutcome.err c8msg) 0).1
        (drafter_node c8state c8db (DraftOutcome.err c8msg) 0).2
        (DraftOutcome.err c8msg) 60).1.revision_reasons.length = 1 :=
  ⟨rfl, rfl, by decide, rfl⟩

/-- C8 amended: a drafting failure moves the status to `rejected` (with
decision `halt`) exactly when the error is API-classified and at least two
drafting-error/503 reasons are already recorded in the state - so the
earliest possible rejection is the third consecutive failure, and only when
the earlier failures produced distinct messages (each failure records at
most one deduplicated reason). -/
theorem api_error_rejection_threshold (state : ProtocolState) (db : DB)
    (msg : String) (now : Nat) (hs : state.status ≠ "rejected") :
    ((drafter_node state db (DraftOutcome.err msg) now).1.status = "rejected" ↔
      (is_api_error msg = true ∧ 2 ≤ drafting_error_count state.revision_reasons)) ∧
    (is_api_error msg = true → 2 ≤ drafting_error_count state.revision_reasons →
      (drafter_node state db (DraftOutcome.err msg) now).1.next_agent = some "halt") := by
  by_cases ha : is_api_error msg = true
  · by_cases hb : 2 ≤ drafting_error_count state.revision_reasons
    · constructor
      · simp [drafter_node, drafterHandleError, ha, hb]
      · intro _ _
        simp [drafter_node, drafterHandleError, ha, hb]
    · constructor
      · simp [drafter_node, drafterHandleError, ha, hb, apply_ite, hs]
      · intro _ hb2
        exact absurd hb2 hb
  · have ha' : is_api_error msg = false := by
      revert ha
      cases is_api_error msg <;> simp
    constructor
    · simp [drafter_node, drafterHandleError, ha', apply_ite, hs]
    · intro ha2
      exact absurd ha2 ha

/-- Blackboard for `p8w` with two distinct drafting-error reasons already
recorded. -/
def w8state : ProtocolState :=
  { protocol_id := "p8w", intent := "", protocol_type := "", current_draft := ""
    safety_score := ⟨0, [], ""⟩, empathy_metrics := ⟨0, "", []⟩
    iteration_count := 0, status := "drafting", next_agent := none
    needs_revision := true, is_approved := false, should_halt := false
    last_agent := "", revision_reasons :=
      ["Drafting error: first boom", "Drafting error: second boom"] }

/-- Persisted row for `p8w`. -/
def w8db : DB :=
  ⟨[{ id := "p8w", intent := "", protocol_type := "", current_draft := ""
      status := "drafting", iteration_count := 0
      safety_score := none, empathy_metrics := none }],
   [], []⟩

/-- Witness for the amended C8: with two recorded drafting errors, a third
503 failure rejects and halts. -/
theorem api_error_rejection_threshold_witness :
    (drafter_node w8state w8db (DraftOutcome.err "503 again") 7).1.status = "rejected" ∧
    (drafter_node w8state w8db (DraftOutcome.err "503 again") 7).1.next_agent = some "halt" :=
  ⟨(api_error_rejection_threshold w8state w8db "503 again" 7 (by decide)).1.mpr
      ⟨by decide, by decide⟩,
   (api_error_rejection_threshold w8state w8db "503 again" 7 (by decide)).2
      (by decide) (by decide)⟩

/-! ## Claim C9: iteration count equals drafter-authored version count -/

/-- The count of `ProtocolVersion` rows authored `"drafter"` for a
protocol. -/
def drafter_version_count (db : DB) (protocol_id : String) : Nat :=
  (db.versions.filter (fun v => v.protocol_id == protocol_id && v.author == "drafter")).length

/-- The drafter's error handler never touches the iteration count or the
version table. -/
theorem drafterHandleError_preserves (state : ProtocolState) (db : DB)
    (msg : String) (now : Nat) :
    (drafterHandleError state db msg now).1.iteration_count = state.iteration_count ∧
    (drafterHandleError state db msg now).2.versions = db.versions := by
  unfold drafterHandleError
  dsimp only
  split
  · exact ⟨rfl, rfl⟩
  · split
    · exact ⟨rfl, rfl⟩
    · exact ⟨rfl, rfl⟩

/-- C9: a successful drafter invocation increments `iteration_count` by
exactly 1 and appends exactly one `ProtocolVersion` row authored `"drafter"`
with version equal to the new count; a failed invocation leaves both
untouched; hence `iteration_count` is monotone and the invariant
`iteration_count = drafter-authored version count` is preserved by every
drafter invocation. -/
theorem drafter_iteration_version_invariant (state : ProtocolState) (db : DB)
    (now : Nat) (hrow : (firstProtocol db state.protocol_id).isSome = true) :
    (∀ d, (drafter_node state db (DraftOutcome.ok d) now).1.iteration_count =
        state.iteration_count + 1 ∧
      (drafter_node state db (DraftOutcome.ok d) now).2.versions =
        db.versions ++ [⟨state.protocol_id, state.iteration_count + 1, d, "drafter"⟩] ∧
      drafter_version_count (drafter_node state db (DraftOutcome.ok d) now).2
          state.protocol_id =
        drafter_version_count db state.protocol_id + 1) ∧
    (∀ m, (drafter_node state db (DraftOutcome.err m) now).1.iteration_count =
        state.iteration_count ∧
      (drafter_node state db (DraftOutcome.err m) now).2.versions = db.versions ∧
      drafter_version_count (drafter_node state db (DraftOutcome.err m) now).2
          state.protocol_id =
        drafter_version_count db state.protocol_id) ∧
    (∀ outcome, state.iteration_count ≤
        (drafter_node state db outcome now).1.iteration_count) ∧
    (∀ outcome, state.iteration_count = drafter_version_count db state.protocol_id →
      (drafter_node state db outcome now).1.iteration_count =
        drafter_version_count (drafter_node state db outcome now).2
          state.protocol_id) := by
  obtain ⟨p, hp⟩ := Option.isSome_iff_exists.mp hrow
  have hsucc : ∀ d, (drafter_node state db (DraftOutcome.ok d) now).1.iteration_count =
      state.iteration_count + 1 ∧
      (drafter_node state db (DraftOutcome.ok d) now).2.versions =
        db.versions ++ [⟨state.protocol_id, state.iteration_count + 1, d, "drafter"⟩] ∧
      drafter_version_count (drafter_node state db (DraftOutcome.ok d) now).2
          state.protocol_id =
        drafter_version_count db state.protocol_id + 1 := by
    intro d
    have hp' : db.protocols.find? (fun q => q.id == state.protocol_id) = some p := hp
    by_cases h0 : state.iteration_count = 0 <;>
      simp [drafter_node, firstProtocol, drafter_version_count, save_agent_thought,
        hp', h0, List.filter_append]
  have herr : ∀ m, (drafter_node state db (DraftOutcome.err m) now).1.iteration_count =
      state.iteration_count ∧
      (drafter_node state db (DraftOutcome.err m) now).2.versions = db.versions ∧
      drafter_version_count (drafter_node state db (DraftOutcome.err m) now).2
          state.protocol_id =
        drafter_version_count db state.protocol_id := by
    intro m
    have h := drafterHandleError_preserves state
      (save_agent_thought db state.protocol_id "drafter" "thought" now) m now
    refine ⟨h.1, h.2, ?_⟩
    have hv : (drafter_node state db (DraftOutcome.err m) now).2.versions =
        db.versions := h.2
    unfold drafter_version_count
    rw [hv]
  refine ⟨hsucc, herr, ?_, ?_⟩
  · intro outcome
    cases outcome with
    | ok d => rw [(hsucc d).1]; exact Nat.le_succ _
    | err m => rw [(herr m).1]
  · intro outcome hinv
    cases outcome with
    | ok d => rw [(hsucc d).1, (hsucc d).2.2, hinv]
    | err m => rw [(herr m).1, (herr m).2.2, hinv]

/-- Fresh blackboard for `p9` at iteration 0 with no versions yet. -/
def w9state : ProtocolState :=
  { protocol_id := "p9", intent := "", protocol_type := "", current_draft := ""
    safety_score := ⟨0, [], ""⟩, empathy_metrics := ⟨0, "", []⟩
    iteration_count := 0, status := "drafting", next_agent := none
    needs_revision := false, is_approved := false, should_halt := false
    last_agent := "", revision_reasons := [] }

/-- Persisted row for `p9`, no version rows. -/
def w9db : DB :=
  ⟨[{ id := "p9", intent := "", protocol_type := "", current_draft := ""
      status := "drafting", iteration_count := 0
      safety_score := none, empathy_metrics := none }],
   [], []⟩

/-- Witness for C9: after a first successful draft, the iteration count
equals the drafter-authored version count. -/
theorem drafter_iteration_version_invariant_witness :
    (drafter_node w9state w9db (DraftOutcome.ok "new draft text") 3).1.iteration_count =
      drafter_version_count
        (drafter_node w9state w9db (DraftOutcome.ok "new draft text") 3).2 "p9" :=
  (drafter_iteration_version_invariant w9state w9db 3 (by decide)).2.2.2
    (DraftOutcome.ok "new draft text") (by decide)
